import Mathlib

/-!
Verification development for the airport multi-agent pipeline
(`main.py`, `utils.py`, `aws_scheduler.py`).

Strings are modelled as `List Char`; Python's `json.loads` is modelled by a
JSON parser over `List Char`; datetimes are modelled by a naive clock reading
(seconds) plus an optional UTC-offset, mirroring `datetime`'s aware/naive
distinction.  All definitions are computable and translated from the source.
-/

set_option maxRecDepth 10000

/-- Characters treated as whitespace by Python's `str.strip` (ASCII subset). -/
def pyIsSpace (c : Char) : Bool :=
  c = ' ' || c = '\t' || c = '\n' || c = '\r' || c = '\x0b' || c = '\x0c'

/-- Model of Python `str.strip()`: drop whitespace from both ends. -/
def pyStrip (xs : List Char) : List Char :=
  ((xs.dropWhile pyIsSpace).reverse.dropWhile pyIsSpace).reverse

/-- Boolean prefix test on character lists (exact match). -/
def isPre : List Char → List Char → Bool
  | [], _ => true
  | _ :: _, [] => false
  | p :: ps, x :: xs => p == x && isPre ps xs

/-- Split a character list at the first occurrence of `pat`, returning the text
before the occurrence and the text after it.  `none` when `pat` does not occur.
This models both Python's `in` test (occurrence) and `str.split(pat, 1)`. -/
def splitOnFirst (pat : List Char) : List Char → Option (List Char × List Char)
  | [] => none
  | x :: xs =>
    if isPre pat (x :: xs) then some ([], (x :: xs).drop pat.length)
    else
      match splitOnFirst pat xs with
      | some (pre, post) => some (x :: pre, post)
      | none => none

/-- Substring-occurrence test, via `splitOnFirst`. -/
def containsSub (pat xs : List Char) : Bool :=
  (splitOnFirst pat xs).isSome

/-- Case-insensitive character comparison specialised to the fixed regex
pattern `\x60\x60\x60json` of `extract_json_from_text` (compiled with
`re.IGNORECASE`); only the letters j, s, o, n occur in the pattern, so only
their upper-case variants are relevant. -/
def ciCharEq (p c : Char) : Bool :=
  p == c || (p == 'j' && c == 'J') || (p == 's' && c == 'S')
    || (p == 'o' && c == 'O') || (p == 'n' && c == 'N')

/-- Case-insensitive prefix test (pattern side uses `ciCharEq`). -/
def isPreCI : List Char → List Char → Bool
  | [], _ => true
  | _ :: _, [] => false
  | p :: ps, x :: xs => ciCharEq p x && isPreCI ps xs

/-- Split at the first case-insensitive occurrence of `pat`. -/
def splitOnFirstCI (pat : List Char) : List Char → Option (List Char × List Char)
  | [] => none
  | x :: xs =>
    if isPreCI pat (x :: xs) then some ([], (x :: xs).drop pat.length)
    else
      match splitOnFirstCI pat xs with
      | some (pre, post) => some (x :: pre, post)
      | none => none

/-- Suffix of `xs` starting at the first occurrence of `c`; `none` if absent. -/
def dropBeforeFirst (c : Char) : List Char → Option (List Char)
  | [] => none
  | x :: xs => if x = c then some (x :: xs) else dropBeforeFirst c xs

/-- Prefix of `xs` up to and including the last occurrence of `c`. -/
def truncAfterLast (c : Char) (xs : List Char) : Option (List Char) :=
  (dropBeforeFirst c xs.reverse).map List.reverse

/-- Model of the greedy regex `\x7b.*\x7d` (with `re.S`) used in
`extract_json_from_text` (main.py line 74): the substring from the first `'{'`
to the last `'}'`, provided the latter comes after the former. -/
def braceSpan (xs : List Char) : Option (List Char) :=
  (dropBeforeFirst '{' xs).bind (truncAfterLast '}')

/-- Index of the first occurrence of `c` (Python `str.index`, which raises when
absent — modelled as `none`). -/
def firstIdxOf (c : Char) : List Char → Option Nat
  | [] => none
  | x :: xs => if x = c then some 0 else (firstIdxOf c xs).map (· + 1)

/-- Index of the last occurrence of `c` (Python `str.rfind` returns -1 when
absent — modelled as `none` here, turned into -1 at the use site). -/
def lastIdxOf (c : Char) (xs : List Char) : Option Nat :=
  (firstIdxOf c xs.reverse).map (fun k => xs.length - 1 - k)

/-- JSON values as produced by `json.loads`.  Number literals keep their source
lexeme (Python would convert to int/float; no claim depends on numeric value
beyond zero-ness, which `jsonNumIsZero` decides from the lexeme). -/
inductive Json where
  | null : Json
  | bool (b : Bool) : Json
  | num (lexeme : List Char) : Json
  | str (s : List Char) : Json
  | arr (items : List Json) : Json
  | obj (fields : List (List Char × Json)) : Json

/-- Whitespace skipped by the JSON grammar. -/
def jsonWs (c : Char) : Bool :=
  c = ' ' || c = '\t' || c = '\n' || c = '\r'

/-- Skip JSON whitespace. -/
def skipWs (xs : List Char) : List Char :=
  xs.dropWhile jsonWs

/-- Decimal digit test. -/
def isDigitCh (c : Char) : Bool :=
  '0' ≤ c && c ≤ '9'

/-- Hex digit value. -/
def hexVal (c : Char) : Option Nat :=
  if '0' ≤ c ∧ c ≤ '9' then some (c.toNat - '0'.toNat)
  else if 'a' ≤ c ∧ c ≤ 'f' then some (c.toNat - 'a'.toNat + 10)
  else if 'A' ≤ c ∧ c ≤ 'F' then some (c.toNat - 'A'.toNat + 10)
  else none

/-- Parse the body of a JSON string literal (after the opening quote), decoding
escapes; rejects unescaped control characters as `json.loads` does. -/
def parseJStr : Nat → List Char → Option (List Char × List Char)
  | 0, _ => none
  | _, [] => none
  | fuel + 1, c :: rest =>
    if c = '"' then some ([], rest)
    else if c = '\\' then
      match rest with
      | [] => none
      | e :: rest2 =>
        let cont (d : Char) (tail : List Char) : Option (List Char × List Char) :=
          (parseJStr fuel tail).map (fun p => (d :: p.1, p.2))
        if e = '"' then cont '"' rest2
        else if e = '\\' then cont '\\' rest2
        else if e = '/' then cont '/' rest2
        else if e = 'b' then cont '\x08' rest2
        else if e = 'f' then cont '\x0c' rest2
        else if e = 'n' then cont '\n' rest2
        else if e = 'r' then cont '\r' rest2
        else if e = 't' then cont '\t' rest2
        else if e = 'u' then
          match rest2 with
          | h1 :: h2 :: h3 :: h4 :: rest3 =>
            match hexVal h1, hexVal h2, hexVal h3, hexVal h4 with
            | some a, some b, some c2, some d2 =>
              cont (Char.ofNat (((a * 16 + b) * 16 + c2) * 16 + d2)) rest3
            | _, _, _, _ => none
          | _ => none
        else none
    else if c.toNat < 32 then none
    else (parseJStr fuel rest).map (fun p => (c :: p.1, p.2))

/-- Parse a JSON number lexeme: optional minus, integer part without leading
zeros, optional fraction, optional exponent. -/
def parseJNum (xs : List Char) : Option (List Char × List Char) :=
  let (sign, rest) :=
    match xs with
    | '-' :: r => (['-'], r)
    | r => (([] : List Char), r)
  match rest with
  | [] => none
  | d :: r2 =>
    if d = '0' then
      let (frac, r3) := afterInt r2
      (frac.map (fun f => (sign ++ ['0'] ++ f, r3))).orElse
        (fun _ => some (sign ++ ['0'], r2))
    else if isDigitCh d then
      let digits := r2.takeWhile isDigitCh
      let r3 := r2.dropWhile isDigitCh
      let (frac, r4) := afterInt r3
      (frac.map (fun f => (sign ++ (d :: digits) ++ f, r4))).orElse
        (fun _ => some (sign ++ (d :: digits), r3))
    else none
where
  /-- Optional fraction and exponent after the integer part; returns the
  consumed lexeme characters when present. -/
  afterInt (xs : List Char) : Option (List Char) × List Char :=
    let (fracPart, r1) :=
      match xs with
      | '.' :: r =>
        let ds := r.takeWhile isDigitCh
        if ds.isEmpty then (none, xs)
        else (some ('.' :: ds), r.dropWhile isDigitCh)
      | _ => ((none : Option (List Char)), xs)
    let (expPart, r2) :=
      match r1 with
      | e :: r =>
        if e = 'e' ∨ e = 'E' then
          let (es, r') :=
            match r with
            | s :: r'' => if s = '+' ∨ s = '-' then ([e, s], r'') else ([e], r)
            | [] => ([e], r)
          let ds := r'.takeWhile isDigitCh
          if ds.isEmpty then ((none : Option (List Char)), r1)
          else (some (es ++ ds), r'.dropWhile isDigitCh)
        else ((none : Option (List Char)), r1)
      | [] => ((none : Option (List Char)), r1)
    match fracPart, expPart with
    | none, none => (none, xs)
    | f, e => (some ((f.getD []) ++ (e.getD [])), r2)

mutual

/-- Parse one JSON value (fuelled recursive descent, fuel bounds nesting). -/
def parseJVal : Nat → List Char → Option (Json × List Char)
  | 0, _ => none
  | fuel + 1, xs =>
    match skipWs xs with
    | [] => none
    | c :: rest =>
      if c = '{' then
        match skipWs rest with
        | '}' :: r2 => some (.obj [], r2)
        | r2 => (parseJMembers fuel r2 []).map (fun p => (.obj p.1, p.2))
      else if c = '[' then
        match skipWs rest with
        | ']' :: r2 => some (.arr [], r2)
        | r2 => (parseJItems fuel r2 []).map (fun p => (.arr p.1, p.2))
      else if c = '"' then
        (parseJStr (rest.length + 1) rest).map (fun p => (.str p.1, p.2))
      else if isPre ['t', 'r', 'u', 'e'] (c :: rest) then
        some (.bool true, rest.drop 3)
      else if isPre ['f', 'a', 'l', 's', 'e'] (c :: rest) then
        some (.bool false, rest.drop 4)
      else if isPre ['n', 'u', 'l', 'l'] (c :: rest) then
        some (.null, rest.drop 3)
      else if c = '-' ∨ isDigitCh c then
        (parseJNum (c :: rest)).map (fun p => (.num p.1, p.2))
      else none

/-- Parse object members (after the opening brace, first key expected next). -/
def parseJMembers : Nat → List Char → List (List Char × Json) →
    Option (List (List Char × Json) × List Char)
  | 0, _, _ => none
  | fuel + 1, xs, acc =>
    match skipWs xs with
    | '"' :: r1 =>
      match parseJStr (r1.length + 1) r1 with
      | none => none
      | some (key, r2) =>
        match skipWs r2 with
        | ':' :: r3 =>
          match parseJVal fuel r3 with
          | none => none
          | some (v, r4) =>
            match skipWs r4 with
            | ',' :: r5 => parseJMembers fuel r5 (acc ++ [(key, v)])
            | '}' :: r5 => some (acc ++ [(key, v)], r5)
            | _ => none
        | _ => none
    | _ => none

/-- Parse array items (after the opening bracket, first item expected next). -/
def parseJItems : Nat → List Char → List Json → Option (List Json × List Char)
  | 0, _, _ => none
  | fuel + 1, xs, acc =>
    match parseJVal fuel xs with
    | none => none
    | some (v, r1) =>
      match skipWs r1 with
      | ',' :: r2 => parseJItems fuel r2 (acc ++ [v])
      | ']' :: r2 => some (acc ++ [v], r2)
      | _ => none

end

/-- Model of Python `json.loads`: parse one JSON document and require only
trailing whitespace after it. -/
def pyLoads (xs : List Char) : Option Json :=
  match parseJVal (xs.length + 1) xs with
  | some (v, rest) => if skipWs rest = [] then some v else none
  | none => none

/-- Interior of the first fenced block matched by the regex
`\x60\x60\x60json(.*?)\x60\x60\x60` with `re.S | re.I`
(main.py line 69), already stripped as at line 71. -/
def fenceCandidate (text : List Char) : Option (List Char) :=
  match splitOnFirstCI ("```json".data) text with
  | some (_, rest) =>
    match splitOnFirst ("```".data) rest with
    | some (inner, _) => some (pyStrip inner)
    | none => none
  | none => none

/-- Model of `extract_json_from_text` (main.py lines 68-79).  `none` stands for
a raised exception (`ValueError` when no block is found, `JSONDecodeError` when
`json.loads` fails); every caller catches it. -/
def extract_json_from_text (text : List Char) : Option Json :=
  match fenceCandidate text with
  | some candidate => pyLoads candidate
  | none =>
    match braceSpan text with
    | some candidate => pyLoads candidate
    | none => none

/-- Model of the last-resort slice `text[text.index("\x7b") : text.rfind("\x7d")+1]`
fed to `json.loads` (main.py lines 128-131 and utils.py lines 31-33); Python's
`rfind` yields -1 when `'}'` is absent, giving an empty slice that fails to
parse. -/
def sliceStep3 (text : List Char) : Option Json :=
  match firstIdxOf '{' text with
  | none => none
  | some i =>
    let j : Int :=
      match lastIdxOf '}' text with
      | none => -1
      | some k => (k : Int)
    pyLoads ((text.drop i).take (j + 1 - (i : Int)).toNat)

/-- Raw values handed to the extractor (a `Task.output.raw`): Python `None`, a
string, an already-parsed mapping, or anything else (list, number, ...). -/
inductive PyValue where
  | none : PyValue
  | str (s : List Char) : PyValue
  | dict (fields : List (List Char × Json)) : PyValue
  | other : PyValue

/-- Model of `parse_json_safe` (main.py lines 98-136): a mapping is returned
unchanged; a string is tried as (1) fenced/braced block via
`extract_json_from_text`, (2) bare `json.loads`, (3) first-brace/last-brace
slice; each failure (raised and caught in the source) falls through; anything
else yields `none`. -/
def parse_json_safe (raw : PyValue) : Option Json :=
  match raw with
  | .none => none
  | .dict d => some (.obj d)
  | .str s =>
    let text := pyStrip s
    match extract_json_from_text text with
    | some j => some j
    | none =>
      match pyLoads text with
      | some j => some j
      | none => sliceStep3 text
  | .other => none

/-- Model of `parse_json_safe` in utils.py (lines 21-36): no fenced-block step
and no initial strip — bare `json.loads`, then the brace slice. -/
def utils_parse_json_safe (raw : PyValue) : Option Json :=
  match raw with
  | .none => none
  | .dict d => some (.obj d)
  | .str s =>
    match pyLoads s with
    | some j => some j
    | none => sliceStep3 s
  | .other => none

/-- Zero test for a JSON number lexeme: the value is 0 exactly when every
mantissa digit is 0 (sign and exponent cannot make it non-zero). -/
def jsonNumIsZero (lexeme : List Char) : Bool :=
  (lexeme.takeWhile (fun c => c ≠ 'e' ∧ c ≠ 'E')).all
    (fun c => c = '0' || c = '.' || c = '-' || c = '+')

/-- Python truthiness of a JSON value: `None`, `False`, numeric zero, and empty
string/list/dict are falsy. -/
def pyTruthy : Json → Bool
  | .null => false
  | .bool b => b
  | .num l => !jsonNumIsZero l
  | .str s => !s.isEmpty
  | .arr xs => !xs.isEmpty
  | .obj fs => !fs.isEmpty

/-- Python `key in dict`. -/
def hasKey (fields : List (List Char × Json)) (key : List Char) : Bool :=
  fields.any (fun p => p.1 == key)

/-- Python `dict.get(key)` with default `None`; duplicate keys produced by the
parser follow `json.loads` semantics (last occurrence wins). -/
def dGet (fields : List (List Char × Json)) (key : List Char) : Json :=
  match fields.reverse.find? (fun p => p.1 == key) with
  | some p => p.2
  | none => .null

/-- Python `a or b` on JSON values: `a` when truthy, else `b`. -/
def pyOrJson (a b : Json) : Json :=
  if pyTruthy a then a else b

/-- Python `str()` of a JSON value as used in f-strings.  Container rendering
(`repr`-style, reachable only for malformed flight records and never compared
by any claim) is elided to a fixed placeholder. -/
def jsonAsPyStr : Json → List Char
  | .null => "None".data
  | .bool true => "True".data
  | .bool false => "False".data
  | .num l => l
  | .str s => s
  | .arr _ => "<list>".data
  | .obj _ => "<dict>".data

/-- Model of a Python `datetime`: the naive clock reading in seconds since the
Unix epoch of that reading, plus the `tzinfo` as an optional UTC offset in
seconds (`none` = naive).  Microseconds are not modelled (every timestamp in
the pipeline is whole-second). -/
structure PyDatetime where
  naive : Int
  tz : Option Int
deriving DecidableEq, Repr

/-- Fixed offset of `ZoneInfo("Asia/Seoul")` in seconds: KST has been +09:00
with no daylight saving for all timestamps this pipeline handles. -/
def kstOffset : Int := 9 * 3600

/-- Python `datetime.replace(tzinfo=...)`: swap the offset, keep the clock. -/
def PyDatetime.replaceTz (d : PyDatetime) (tz : Option Int) : PyDatetime :=
  { d with tz := tz }

/-- Python `datetime - timedelta(seconds=s)`: shift the clock reading. -/
def PyDatetime.subSeconds (d : PyDatetime) (s : Int) : PyDatetime :=
  { d with naive := d.naive - s }

/-- UTC instant of a datetime; for the naive case the offset defaults to 0
(every use site in the pipeline passes an aware value). -/
def PyDatetime.instant (d : PyDatetime) : Int :=
  d.naive - d.tz.getD 0

/-- Python `datetime.astimezone(timezone.utc)` for aware values: rebase the
clock to UTC, offset 0. -/
def PyDatetime.astimezoneUtc (d : PyDatetime) : PyDatetime :=
  ⟨d.instant, some 0⟩

/-- Python `a > b` on aware datetimes: compare UTC instants. -/
def pyDtGt (a b : PyDatetime) : Bool :=
  b.instant < a.instant

/-- Leap-year test (Gregorian). -/
def isLeapYear (y : Nat) : Bool :=
  (y % 4 = 0 && y % 100 ≠ 0) || y % 400 = 0

/-- Number of days in a month. -/
def daysInMonth (y m : Nat) : Nat :=
  if m = 2 then (if isLeapYear y then 29 else 28)
  else if m = 4 ∨ m = 6 ∨ m = 9 ∨ m = 11 then 30
  else 31

/-- Days from the civil date `y-m-d` to 1970-01-01 (standard days-from-civil
algorithm, valid for the CE years used here). -/
def daysFromCivil (y m d : Nat) : Int :=
  let ys := if m ≤ 2 then y - 1 else y
  let era := ys / 400
  let yoe := ys % 400
  let mp := if m ≤ 2 then m + 9 else m - 3
  let doy := (153 * mp + 2) / 5 + d - 1
  let doe := yoe * 365 + yoe / 4 - yoe / 100 + doy
  (era : Int) * 146097 + (doe : Int) - 719468

/-- Seconds since epoch of a naive civil timestamp. -/
def civilToSeconds (y mo d h mi s : Nat) : Int :=
  daysFromCivil y mo d * 86400 + (h : Int) * 3600 + (mi : Int) * 60 + (s : Int)

/-- Parse exactly `n` decimal digits. -/
def parseNDigits : Nat → List Char → Option (Nat × List Char)
  | 0, xs => some (0, xs)
  | n + 1, c :: xs =>
    if isDigitCh c then
      (parseNDigits n xs).map (fun p => ((c.toNat - '0'.toNat) * 10 ^ n + p.1, p.2))
    else none
  | _ + 1, [] => none

/-- Parse an optional UTC-offset suffix `±HH:MM`, `±HH:MM:SS` or `Z`;
`none` result component = naive. -/
def parseIsoOffset (xs : List Char) : Option (Option Int × List Char) :=
  match xs with
  | [] => some (none, [])
  | 'Z' :: rest => some (some 0, rest)
  | 'z' :: rest => some (some 0, rest)
  | sgn :: rest =>
    if sgn = '+' ∨ sgn = '-' then
      match parseNDigits 2 rest with
      | some (oh, ':' :: r2) =>
        match parseNDigits 2 r2 with
        | some (om, r3) =>
          if oh ≤ 23 ∧ om ≤ 59 then
            let (os, r4) :=
              match r3 with
              | ':' :: r5 =>
                match parseNDigits 2 r5 with
                | some (v, r6) => if v ≤ 59 then (v, r6) else (0, r3)
                | none => (0, r3)
              | _ => (0, r3)
            let total : Int := (oh : Int) * 3600 + (om : Int) * 60 + (os : Int)
            some (some (if sgn = '-' then -total else total), r4)
          else none
        | none => none
      | _ => none
    else none

/-- Model of Python 3.11 `datetime.fromisoformat` restricted to the formats the
pipeline feeds it: `YYYY-MM-DD`, optionally `T`/space and `HH:MM[:SS[.ffffff]]`,
optionally an offset (`±HH:MM[:SS]` or `Z`).  A fractional-seconds part is
consumed and truncated (no claim involves sub-second timestamps).  Any other
shape is `none`, matching the `ValueError` that every call site catches. -/
def fromisoformat (s : List Char) : Option PyDatetime :=
  match parseNDigits 4 s with
  | some (y, '-' :: r1) =>
    (match parseNDigits 2 r1 with
    | some (mo, '-' :: r2) =>
      (match parseNDigits 2 r2 with
      | some (d, r3) =>
        if 1 ≤ mo ∧ mo ≤ 12 ∧ 1 ≤ d ∧ d ≤ daysInMonth y mo then
          match r3 with
          | [] => some ⟨civilToSeconds y mo d 0 0 0, none⟩
          | sep :: r4 =>
            if sep = 'T' ∨ sep = ' ' then
              match parseNDigits 2 r4 with
              | some (h, ':' :: r5) =>
                (match parseNDigits 2 r5 with
                | some (mi, r6) =>
                  if h ≤ 23 ∧ mi ≤ 59 then
                    let (sec, r7) :=
                      match r6 with
                      | ':' :: r8 =>
                        (match parseNDigits 2 r8 with
                        | some (v, r9) =>
                          if v ≤ 59 then
                            match r9 with
                            | '.' :: r10 =>
                              let frac := r10.takeWhile isDigitCh
                              if frac.isEmpty ∨ 6 < frac.length then (v, r9)
                              else (v, r10.dropWhile isDigitCh)
                            | _ => (v, r9)
                          else (0, r6)
                        | none => (0, r6))
                      | _ => (0, r6)
                    match parseIsoOffset r7 with
                    | some (tz, []) => some ⟨civilToSeconds y mo d h mi sec, tz⟩
                    | _ => none
                  else none
                | none => none)
              | _ => none
            else none
        else none
      | none => none)
    | _ => none)
  | _ => none

/-- Python `str.replace("\r\n", "\n")` (main.py line 153). -/
def replaceCRLF : List Char → List Char
  | [] => []
  | '\r' :: '\n' :: rest => '\n' :: replaceCRLF rest
  | x :: rest => x :: replaceCRLF rest

/-- Python `str.replace(" ", "T")` (main.py line 242). -/
def replaceSpaceT (xs : List Char) : List Char :=
  xs.map (fun c => if c = ' ' then 'T' else c)

/-- First section marker of the notification text. -/
def marker5h : List Char := "### 5시간 전 알림".data

/-- Second section marker of the notification text. -/
def marker2h : List Char := "### 2시간 전 알림".data

/-- Model of `extract_alert_bodies` (main.py lines 139-171).  The input is the
raw notification value (`none` = Python `None`; the falsy check also catches
the empty string).  The first component keeps an empty extracted section as
`some []` because the source returns `section_5` bare, while the second is
`section_2 or None`. -/
def extract_alert_bodies (raw : Option (List Char)) :
    Option (List Char) × Option (List Char) :=
  match raw with
  | none => (none, none)
  | some s =>
    if s.isEmpty then (none, none)
    else
      let text := replaceCRLF s
      match splitOnFirst marker5h text with
      | none => (none, none)
      | some (_, after5) =>
        match splitOnFirst marker2h after5 with
        | some (sec5, rest) =>
          let sec2 := pyStrip rest
          (some (pyStrip sec5), if sec2.isEmpty then none else some sec2)
        | none => (some (pyStrip after5), none)

/-- Python truthiness of an optional string: `None` and `""` are falsy. -/
def optFalsy : Option (List Char) → Bool
  | none => true
  | some s => s.isEmpty

/-- Python `str(raw)` for the raw notification value. -/
def pyStrOf : Option (List Char) → List Char
  | none => "None".data
  | some s => s

/-- Model of main.py lines 262-267: when either extracted body is falsy, BOTH
bodies are replaced by the stringified raw notification text. -/
def resolve_alert_bodies (raw : Option (List Char)) : List Char × List Char :=
  let p := extract_alert_bodies raw
  if optFalsy p.1 || optFalsy p.2 then (pyStrOf raw, pyStrOf raw)
  else (p.1.getD [], p.2.getD [])

/-- Departure-instant computation of the email path (main.py lines 240-249):
replace spaces by `T`, parse, then UNCONDITIONALLY overwrite the tzinfo with
the fixed Asia/Seoul offset, and convert to UTC. -/
def email_dep_utc (s : List Char) : Option PyDatetime :=
  (fromisoformat (replaceSpaceT s)).map
    (fun d => (d.replaceTz (some kstOffset)).astimezoneUtc)

/-- Local departure datetime of the departure-notification path (main.py lines
643-645): parse, and attach the fixed Asia/Seoul offset ONLY when the parsed
value is naive. -/
def departure_parse_local (s : List Char) : Option PyDatetime :=
  (fromisoformat s).map
    (fun d => if d.tz.isNone then d.replaceTz (some kstOffset) else d)

/-- Tag of the five-hour schedule. -/
def tag5h : List Char := "5h_before".data

/-- Tag of the two-hour schedule. -/
def tag2h : List Char := "2h_before".data

/-- Arguments of one `create_email_schedule` call (aws_scheduler.py line 57). -/
structure ScheduleRequest where
  run_time_utc : PyDatetime
  to_email : List Char
  subject : List Char
  body : List Char
  tag : List Char
deriving DecidableEq, Repr

/-- Data assembled by `schedule_email_alerts_from_summary` (main.py lines
182-270) before the guarded `create_email_schedule` calls; `none` models every
early `return` (missing e-mail, empty flight list, missing or unparseable
departure time, non-mapping first flight). -/
structure EmailPlan where
  notify_5h : PyDatetime
  notify_2h : PyDatetime
  to_email : List Char
  subject_5h : List Char
  subject_2h : List Char
  body_5h : List Char
  body_2h : List Char
deriving DecidableEq, Repr

/-- Keys probed on a wrapper flight record (main.py line 203). -/
def wrapperKeys : List (List Char) :=
  ["best_flights".data, "flights".data, "recommendations".data, "results".data]

/-- Model of main.py lines 182-270 given the already-destructured summary
fields (`to_email` from `user_input_hint.contact.email`, `flight_raw` from
`tasks.flight`, `notif_raw` from `tasks.notification`).  Paths on which the
source raises inside the caller-side `try` (non-list flights value, non-mapping
first element) also yield `none`. -/
def email_schedule_plan (to_email : Option (List Char)) (flight_raw : PyValue)
    (notif_raw : Option (List Char)) : Option EmailPlan :=
  if optFalsy to_email then none
  else
    let flight_json := parse_json_safe flight_raw
    let flights : Json :=
      match flight_json with
      | some (Json.obj d) =>
        if hasKey d ("best_flights".data) || hasKey d ("flights".data)
            || hasKey d ("recommendations".data) || hasKey d ("results".data) then
          pyOrJson (dGet d ("best_flights".data))
            (pyOrJson (dGet d ("flights".data))
              (pyOrJson (dGet d ("recommendations".data))
                (pyOrJson (dGet d ("results".data)) (Json.arr []))))
        else Json.arr [Json.obj d]
      | some (Json.arr xs) => Json.arr xs
      | _ => Json.arr []
    if !pyTruthy flights then none
    else
      match flights with
      | Json.arr (first :: _) =>
        match first with
        | Json.obj fd =>
          let fid := pyOrJson (dGet fd ("flight_id".data))
            (pyOrJson (dGet fd ("id".data))
              (pyOrJson (dGet fd ("flight_number".data)) (Json.str ("UNKNOWN".data))))
          let dts := pyOrJson (dGet fd ("departure_time_local".data))
            (pyOrJson (dGet fd ("departure_time".data)) (dGet fd ("departure".data)))
          if !pyTruthy dts then none
          else
            match dts with
            | Json.str s =>
              match email_dep_utc s with
              | none => none
              | some dep_utc =>
                let bodies := resolve_alert_bodies notif_raw
                some
                  { notify_5h := dep_utc.subSeconds (5 * 3600)
                    notify_2h := dep_utc.subSeconds (2 * 3600)
                    to_email := (to_email.getD [])
                    subject_5h := "[인천공항] 출국 5시간 전 알림 (".data
                      ++ jsonAsPyStr fid ++ ")".data
                    subject_2h := "[인천공항] 출국 2시간 전 알림 (".data
                      ++ jsonAsPyStr fid ++ ")".data
                    body_5h := bodies.1
                    body_2h := bodies.2 }
            | _ => none
        | _ => none
      | _ => none

/-- Model of `schedule_email_alerts_from_summary` (main.py lines 173-289):
assemble the plan, then register each trigger only under its own strictly-
in-the-future guard (lines 273 and 282). -/
def schedule_email_alerts (to_email : Option (List Char)) (flight_raw : PyValue)
    (notif_raw : Option (List Char)) (now_utc : PyDatetime) : List ScheduleRequest :=
  match email_schedule_plan to_email flight_raw notif_raw with
  | none => []
  | some p =>
    (if pyDtGt p.notify_5h now_utc then
      [⟨p.notify_5h, p.to_email, p.subject_5h, p.body_5h, tag5h⟩] else [])
    ++ (if pyDtGt p.notify_2h now_utc then
      [⟨p.notify_2h, p.to_email, p.subject_2h, p.body_2h, tag2h⟩] else [])

/-- Arguments of one `create_departure_notification_schedule` call. -/
structure DepCall where
  run_time_utc : PyDatetime
  tag : List Char
deriving DecidableEq, Repr

/-- Model of the departure-notification scheduling block (main.py lines
635-678): presence guards on the departure time, home address and e-mail, then
inside one `try` both registrar calls are made unconditionally — there is no
comparison against the current time.  An unparseable timestamp raises and is
caught at line 677, producing no calls. -/
def departure_notification_block (dep_time_str home_address email :
    Option (List Char)) : List DepCall :=
  if optFalsy dep_time_str || optFalsy home_address || optFalsy email then []
  else
    match departure_parse_local (dep_time_str.getD []) with
    | none => []
    | some dep_local =>
      let dt5 := (dep_local.subSeconds (5 * 3600)).astimezoneUtc
      let dt2 := (dep_local.subSeconds (2 * 3600)).astimezoneUtc
      [⟨dt5, tag5h⟩, ⟨dt2, tag2h⟩]

/-- Environment-derived configuration read by aws_scheduler.py (module level):
the feature flag, whether the boto3 client was built, and the two ARNs. -/
structure SchedulerConfig where
  enable_aws_scheduler : Option (List Char)
  scheduler_client : Bool
  lambda_arn : Option (List Char)
  scheduler_role_arn : Option (List Char)

/-- Model of `_ensure_scheduler_available` (aws_scheduler.py lines 36-54):
all four preconditions must hold; each failure is a reported skip. -/
def ensure_scheduler_available (cfg : SchedulerConfig) : Bool :=
  !optFalsy cfg.enable_aws_scheduler && cfg.scheduler_client
    && !optFalsy cfg.lambda_arn && !optFalsy cfg.scheduler_role_arn

/-- Outcome of a registrar call: `raised` models the `ValueError` thrown for a
naive datetime, `skipped` the `return None` after a failed precondition, and
`created` a performed `scheduler.create_schedule` call (the only outcome with
an external side effect). -/
inductive RegOutcome where
  | raised : RegOutcome
  | skipped : RegOutcome
  | created : RegOutcome
deriving DecidableEq, Repr

/-- Model of `create_email_schedule` (aws_scheduler.py lines 57-91): the
tzinfo check comes first and raises; the precondition check follows and skips;
only then is the external schedule created. -/
def create_email_schedule (run_time_utc : PyDatetime) (cfg : SchedulerConfig) :
    RegOutcome :=
  if run_time_utc.tz.isNone then .raised
  else if !ensure_scheduler_available cfg then .skipped
  else .created

/-- Model of `create_departure_notification_schedule` (aws_scheduler.py lines
94-133): same structure as `create_email_schedule`. -/
def create_departure_notification_schedule (run_time_utc : PyDatetime)
    (cfg : SchedulerConfig) : RegOutcome :=
  if run_time_utc.tz.isNone then .raised
  else if !ensure_scheduler_available cfg then .skipped
  else .created

/-- Outcome of one registrar call as seen by the caller's control flow:
`returned` covers both a successful registration and a precondition skip
(`return None`); `raises` covers an exception escaping the call. -/
inductive CallOutcome where
  | returned : CallOutcome
  | raises : CallOutcome
deriving DecidableEq, Repr

/-- Tags whose registrar call is reached in the departure-notification block
(main.py lines 666-678): both calls sit inside ONE `try`, so an exception
raised by the 5h call (caught only at line 677) skips the 2h call. -/
def departure_registration_attempts (o5 : CallOutcome) : List (List Char) :=
  match o5 with
  | .raises => [tag5h]
  | .returned => [tag5h, tag2h]

/-- Tags whose registrar call is reached in the email path (main.py lines
273-289 under the caller's `try` at lines 751-754): the two guarded calls run
sequentially with no `try` between them, so an exception from the 5h call
(caught only at line 753) skips the 2h call.  `g5`/`g2` are the staleness
guards, `o5` the outcome of the 5h call when attempted. -/
def email_registration_attempts (g5 g2 : Bool) (o5 : CallOutcome) :
    List (List Char) :=
  if g5 then
    match o5 with
    | .raises => [tag5h]
    | .returned => tag5h :: (if g2 then [tag2h] else [])
  else if g2 then [tag2h] else []

/-- Python `history[-20:]`: the most recent `n` elements. -/
def lastN (n : Nat) (l : List α) : List α :=
  l.drop (l.length - n)

/-- Model of `append_trip_memory` (main.py lines 292-311) acting on the
`trip_history` list: append the new entry, keep only the last 20. -/
def append_trip_history (history : List α) (e : α) : List α :=
  lastN 20 (history ++ [e])

/-- Membership in a stripped list implies membership in the original. -/
theorem mem_of_mem_pyStrip {c : Char} {l : List Char} (h : c ∈ pyStrip l) :
    c ∈ l := by
  unfold pyStrip at h
  rw [List.mem_reverse] at h
  have h2 := (List.dropWhile_sublist (l := (l.dropWhile pyIsSpace).reverse)
    (p := pyIsSpace)).mem h
  rw [List.mem_reverse] at h2
  exact (List.dropWhile_sublist (l := l) (p := pyIsSpace)).mem h2

/-- The fence pattern cannot occur in backtick-free text. -/
theorem splitOnFirstCI_fence_none {xs : List Char}
    (h : ∀ c ∈ xs, c ≠ '`') : splitOnFirstCI ("```json".data) xs = none := by
  induction xs with
  | nil => rfl
  | cons x t ih =>
    have hx : x ≠ '`' := h x (List.mem_cons_self x t)
    have hci : ciCharEq '`' x = false := by
      simp only [ciCharEq]
      simp [Ne.symm hx]
    have hpat : ("```json".data) = '`' :: "``json".data := rfl
    have hpre : isPreCI ("```json".data) (x :: t) = false := by
      rw [hpat]
      simp [isPreCI, hci]
    simp only [splitOnFirstCI, hpre, Bool.false_eq_true, if_false]
    rw [ih (fun c hc => h c (List.mem_cons_of_mem x hc))]

/-- Absence of the character means `dropBeforeFirst` fails. -/
theorem dropBeforeFirst_eq_none {c : Char} {xs : List Char} (h : c ∉ xs) :
    dropBeforeFirst c xs = none := by
  induction xs with
  | nil => rfl
  | cons x t ih =>
    have hx : x ≠ c := fun hh => h (hh ▸ List.mem_cons_self x t)
    simp [dropBeforeFirst, hx, ih (fun hc => h (List.mem_cons_of_mem x hc))]

/-- Absence of the character means `firstIdxOf` fails. -/
theorem firstIdxOf_eq_none {c : Char} {xs : List Char} (h : c ∉ xs) :
    firstIdxOf c xs = none := by
  induction xs with
  | nil => rfl
  | cons x t ih =>
    have hx : x ≠ c := fun hh => h (hh ▸ List.mem_cons_self x t)
    simp [firstIdxOf, hx, ih (fun hc => h (List.mem_cons_of_mem x hc))]

/-- Dropping whitespace commutes with an append whose head is non-space. -/
theorem dropWhile_append_cons (pre xs : List Char) (x : Char)
    (hx : pyIsSpace x = false) :
    (pre ++ x :: xs).dropWhile pyIsSpace = pre.dropWhile pyIsSpace ++ x :: xs := by
  induction pre with
  | nil => simp [List.dropWhile_cons, hx]
  | cons a t ih =>
    by_cases ha : pyIsSpace a = true
    · simp [List.dropWhile_cons, ha, ih]
    · simp [List.dropWhile_cons, ha]

/-- Right-side strip does not eat past a non-space separator. -/
theorem stripRight_append (xs post : List Char) (y : Char)
    (hy : pyIsSpace y = false) :
    ((xs ++ [y] ++ post).reverse.dropWhile pyIsSpace).reverse
      = xs ++ [y] ++ (post.reverse.dropWhile pyIsSpace).reverse := by
  have h : (xs ++ [y] ++ post).reverse = post.reverse ++ y :: xs.reverse := by
    simp
  rw [h, dropWhile_append_cons _ _ _ hy]
  simp

/-- Stripping a prose-wrapped brace-delimited core strips only the prose. -/
theorem pyStrip_sandwich (pre mid post : List Char) :
    pyStrip (pre ++ ('{' :: (mid ++ ['}'])) ++ post)
      = pre.dropWhile pyIsSpace ++ ('{' :: (mid ++ ['}']))
          ++ (post.reverse.dropWhile pyIsSpace).reverse := by
  unfold pyStrip
  have h1 : pre ++ ('{' :: (mid ++ ['}'])) ++ post
      = pre ++ '{' :: (mid ++ ['}'] ++ post) := by simp
  rw [h1, dropWhile_append_cons _ _ _ (by decide)]
  have h2 : pre.dropWhile pyIsSpace ++ '{' :: (mid ++ ['}'] ++ post)
      = (pre.dropWhile pyIsSpace ++ '{' :: mid) ++ ['}'] ++ post := by simp
  rw [h2, stripRight_append _ _ _ (by decide)]
  simp

/-- `dropBeforeFirst` lands on the first marked position. -/
theorem dropBeforeFirst_append (pre rest : List Char) (c : Char) (h : c ∉ pre) :
    dropBeforeFirst c (pre ++ c :: rest) = some (c :: rest) := by
  induction pre with
  | nil => simp [dropBeforeFirst]
  | cons a t ih =>
    have ha : a ≠ c := fun hh => h (hh ▸ List.mem_cons_self a t)
    simp [dropBeforeFirst, ha, ih (fun hc => h (List.mem_cons_of_mem a hc))]

/-- The greedy brace regex recovers exactly the brace-delimited core when the
prefix has no `'{'` and the suffix has no `'}'`. -/
theorem braceSpan_sandwich (pre2 mid post2 : List Char)
    (h1 : '{' ∉ pre2) (h2 : '}' ∉ post2) :
    braceSpan (pre2 ++ ('{' :: (mid ++ ['}'])) ++ post2)
      = some ('{' :: (mid ++ ['}'])) := by
  unfold braceSpan
  have e1 : pre2 ++ ('{' :: (mid ++ ['}'])) ++ post2
      = pre2 ++ '{' :: (mid ++ ['}'] ++ post2) := by simp
  rw [e1, dropBeforeFirst_append _ _ _ h1]
  show truncAfterLast '}' ('{' :: (mid ++ ['}'] ++ post2))
    = some ('{' :: (mid ++ ['}']))
  unfold truncAfterLast
  have e2 : ('{' :: (mid ++ ['}'] ++ post2)).reverse
      = post2.reverse ++ '}' :: (mid.reverse ++ ['{']) := by
    simp
  rw [e2, dropBeforeFirst_append _ _ _ (fun hc => h2 (List.mem_reverse.mp hc))]
  simp

/-- C7: the trip history store keeps at most 20 entries: appending the 25
entries 1..25 to an empty store leaves exactly 6..25 in order, the newest
evicted entry (5, the 21st counting back from the last append) is absent, and
after any single append the stored length never exceeds 20. -/
theorem trip_history_window_and_bound :
    List.foldl append_trip_history ([] : List Nat) ((List.range 25).map (· + 1))
        = (List.range 20).map (· + 6)
      ∧ 5 ∉ List.foldl append_trip_history ([] : List Nat)
          ((List.range 25).map (· + 1))
      ∧ ∀ (α : Type) (h : List α) (e : α), (append_trip_history h e).length ≤ 20 := by
  refine ⟨by decide, by decide, ?_⟩
  intro α h e
  simp [append_trip_history, lastN]
  omega

/-- C8: the splitter returns ("A", "B") on the canonical two-marker text, and
returns (none, none) for every text in which the first marker does not occur
(occurrence being checked, as in the source, on the CRLF-normalised text). -/
theorem alert_splitter_markers :
    extract_alert_bodies (some ("### 5시간 전 알림\nA\n### 2시간 전 알림\nB".data))
        = (some ['A'], some ['B'])
      ∧ ∀ s : List Char, containsSub marker5h (replaceCRLF s) = false →
          extract_alert_bodies (some s) = (none, none) := by
  refine ⟨by decide, ?_⟩
  intro s h
  have h' : splitOnFirst marker5h (replaceCRLF s) = none := by
    cases hsp : splitOnFirst marker5h (replaceCRLF s) with
    | none => rfl
    | some v => rw [containsSub, hsp] at h; simp at h
  by_cases hs : s.isEmpty <;> simp [extract_alert_bodies, hs, h']

/-- Witness for the universally quantified part of C8. -/
theorem alert_splitter_markers_witness :
    containsSub marker5h (replaceCRLF ("일반 텍스트, 마커 없음".data)) = false
      ∧ extract_alert_bodies (some ("일반 텍스트, 마커 없음".data)) = (none, none) :=
  ⟨by decide, alert_splitter_markers.2 _ (by decide)⟩

/-- C9: in the email path, whenever either extracted body is falsy (None or
empty) — including the case where only the 2h body is missing — BOTH bodies
are replaced by the stringified raw notification text. -/
theorem email_body_fallback_replaces_both (raw : Option (List Char))
    (h : optFalsy (extract_alert_bodies raw).1 = true
       ∨ optFalsy (extract_alert_bodies raw).2 = true) :
    resolve_alert_bodies raw = (pyStrOf raw, pyStrOf raw) := by
  unfold resolve_alert_bodies
  rcases h with h | h <;> simp [h]

/-- Witness for C9: a text with a 5h section but no 2h marker — the 5h body is
extracted successfully, yet both bodies fall back to the full raw text. -/
theorem email_body_fallback_replaces_both_witness :
    (extract_alert_bodies (some ("### 5시간 전 알림\nA".data))).1 = some ['A']
      ∧ optFalsy (extract_alert_bodies (some ("### 5시간 전 알림\nA".data))).2 = true
      ∧ resolve_alert_bodies (some ("### 5시간 전 알림\nA".data))
          = (pyStrOf (some ("### 5시간 전 알림\nA".data)),
             pyStrOf (some ("### 5시간 전 알림\nA".data))) :=
  ⟨by decide, by decide,
    email_body_fallback_replaces_both _ (Or.inr (by decide))⟩

/-- C10: a timezone-naive run time makes both registrar functions raise, and
they do so regardless of the configuration — i.e. before any precondition
check (a failed precondition with an aware run time instead yields the
side-effect-free skip `None`, never a raised error). -/
theorem registrar_naive_raises_config_skips :
    (∀ (run : PyDatetime) (cfg : SchedulerConfig), run.tz = none →
        create_email_schedule run cfg = RegOutcome.raised
          ∧ create_departure_notification_schedule run cfg = RegOutcome.raised)
      ∧ ∀ (run : PyDatetime) (cfg : SchedulerConfig), run.tz ≠ none →
          ensure_scheduler_available cfg = false →
          create_email_schedule run cfg = RegOutcome.skipped
            ∧ create_departure_notification_schedule run cfg
                = RegOutcome.skipped := by
  constructor
  · intro run cfg h
    constructor <;>
      simp [create_email_schedule, create_departure_notification_schedule, h]
  · intro run cfg h1 h2
    cases h3 : run.tz with
    | none => exact absurd h3 h1
    | some o =>
      constructor <;>
        simp [create_email_schedule, create_departure_notification_schedule,
          h3, h2]

/-- Witness for C10: a naive run time raises even under a fully unconfigured
scheduler, while an aware run time under the same configuration skips. -/
theorem registrar_naive_raises_config_skips_witness :
    ((⟨0, none⟩ : PyDatetime).tz = none
        ∧ create_email_schedule ⟨0, none⟩ ⟨none, false, none, none⟩
            = RegOutcome.raised)
      ∧ ((⟨0, some 0⟩ : PyDatetime).tz ≠ none
        ∧ ensure_scheduler_available ⟨none, false, none, none⟩ = false
        ∧ create_email_schedule ⟨0, some 0⟩ ⟨none, false, none, none⟩
            = RegOutcome.skipped) :=
  ⟨⟨rfl, (registrar_naive_raises_config_skips.1 ⟨0, none⟩ ⟨none, false, none, none⟩ rfl).1⟩,
   ⟨by decide, by decide,
    (registrar_naive_raises_config_skips.2 ⟨0, some 0⟩ ⟨none, false, none, none⟩
      (by decide) (by decide)).1⟩⟩

/-- C1 counterexample: a raised (and upstream-caught) exception in the 5h
registration prevents the 2h attempt — in the departure-notification block the
2h tag is never reached, and in the email path the attempts stop at the 5h
tag.  This refutes the claim that a failure including a caught exception never
prevents the other attempt. -/
theorem registration_not_exception_independent :
    tag2h ∉ departure_registration_attempts CallOutcome.raises
      ∧ email_registration_attempts true true CallOutcome.raises = [tag5h] := by
  exact ⟨by decide, by decide⟩

/-- C1 amended: the registrations are independent for every outcome that
returns normally — including the precondition skips that return `None` — in
both paths; only a raised exception from the 5h call prevents the 2h call. -/
theorem registration_independent_unless_raise (o5 : CallOutcome)
    (h : o5 ≠ CallOutcome.raises) :
    departure_registration_attempts o5 = [tag5h, tag2h]
      ∧ ∀ g5 g2 : Bool,
          (g5 = true → tag5h ∈ email_registration_attempts g5 g2 o5)
            ∧ (g2 = true → tag2h ∈ email_registration_attempts g5 g2 o5) := by
  cases o5 with
  | raises => exact absurd rfl h
  | returned =>
    refine ⟨rfl, ?_⟩
    intro g5 g2
    cases g5 <;> cases g2 <;> constructor <;> intro hg <;>
      simp_all [email_registration_attempts]

/-- Witness for C1's amended statement. -/
theorem registration_independent_unless_raise_witness :
    (CallOutcome.returned ≠ CallOutcome.raises)
      ∧ departure_registration_attempts CallOutcome.returned = [tag5h, tag2h]
      ∧ tag2h ∈ email_registration_attempts true true CallOutcome.returned :=
  ⟨by decide,
   (registration_independent_unless_raise CallOutcome.returned (by decide)).1,
   ((registration_independent_unless_raise CallOutcome.returned (by decide)).2
      true true).2 rfl⟩

/-- Fully enabled scheduler configuration (feature flag set, client built,
both ARNs present). -/
def fullCfg : SchedulerConfig :=
  ⟨some ("1".data), true, some ("arn:lambda".data), some ("arn:role".data)⟩

/-- C2 counterexample: with the current UTC instant 2025-10-12T00:00:00Z, a
long-past departure time still makes the departure-notification block perform
both registrar calls — both trigger instants are at or before now, yet under
an enabled configuration each call creates the schedule.  This refutes the
claim for the departure-notification path. -/
theorem stale_trigger_submitted_in_departure_path :
    departure_notification_block (some ("2020-01-01T10:00:00+09:00".data))
        (some ("서울시 강남구".data)) (some ("user@example.com".data))
      = [⟨⟨1577822400, some 0⟩, tag5h⟩, ⟨⟨1577833200, some 0⟩, tag2h⟩]
    ∧ pyDtGt (⟨1577822400, some 0⟩ : PyDatetime) ⟨1760227200, some 0⟩ = false
    ∧ pyDtGt (⟨1577833200, some 0⟩ : PyDatetime) ⟨1760227200, some 0⟩ = false
    ∧ create_departure_notification_schedule ⟨1577822400, some 0⟩ fullCfg
        = RegOutcome.created
    ∧ create_departure_notification_schedule ⟨1577833200, some 0⟩ fullCfg
        = RegOutcome.created := by
  refine ⟨by decide, by decide, by decide, by decide, by decide⟩

/-- C2 amended: in the EMAIL path the invariant does hold — every registered
request's run time is strictly after `now`, and a stale 5h trigger is dropped
while a future 2h trigger is still attempted on its own. -/
theorem email_path_stale_guard :
    (∀ (to_email : Option (List Char)) (flight_raw : PyValue)
        (notif_raw : Option (List Char)) (now : PyDatetime)
        (req : ScheduleRequest),
        req ∈ schedule_email_alerts to_email flight_raw notif_raw now →
        pyDtGt req.run_time_utc now = true)
      ∧ ∀ (to_email : Option (List Char)) (flight_raw : PyValue)
          (notif_raw : Option (List Char)) (now : PyDatetime) (p : EmailPlan),
          email_schedule_plan to_email flight_raw notif_raw = some p →
          pyDtGt p.notify_5h now = false → pyDtGt p.notify_2h now = true →
          schedule_email_alerts to_email flight_raw notif_raw now
            = [⟨p.notify_2h, p.to_email, p.subject_2h, p.body_2h, tag2h⟩] := by
  constructor
  · intro te fr nr now req hmem
    unfold schedule_email_alerts at hmem
    cases hp : email_schedule_plan te fr nr with
    | none => rw [hp] at hmem; simp at hmem
    | some p =>
      rw [hp] at hmem
      rcases List.mem_append.mp hmem with h | h
      · by_cases hg : pyDtGt p.notify_5h now = true
        · rw [if_pos hg] at h
          rcases List.mem_singleton.mp h with rfl
          exact hg
        · rw [if_neg hg] at h
          simp at h
      · by_cases hg : pyDtGt p.notify_2h now = true
        · rw [if_pos hg] at h
          rcases List.mem_singleton.mp h with rfl
          exact hg
        · rw [if_neg hg] at h
          simp at h
  · intro te fr nr now p hp h5 h2
    unfold schedule_email_alerts
    rw [hp]
    simp [h5, h2]

/-- Flight record of the scenario in the spec: one best flight departing
2025-11-23T10:15:00+09:00, flight number KE123 (braces written as hex escapes). -/
def scenarioFlightRaw : PyValue :=
  .str ("\x7b\"best_flights\":[\x7b\"departure_time_local\":\"2025-11-23T10:15:00+09:00\", \"flight_number\":\"KE123\"\x7d]\x7d".data)

/-- Notification text of the scenario (both markers present). -/
def scenarioNotif : Option (List Char) :=
  some ("### 5시간 전 알림\nA\n### 2시간 전 알림\nB".data)

/-- Scenario current time 2025-11-23T00:00:00+09:00 as an aware UTC value. -/
def scenarioNow : PyDatetime :=
  ((fromisoformat ("2025-11-23T00:00:00+09:00".data)).getD ⟨0, none⟩).astimezoneUtc

/-- Requests the email path produces for the scenario. -/
def scenarioRequests : List ScheduleRequest :=
  schedule_email_alerts (some ("u@example.com".data)) scenarioFlightRaw
    scenarioNotif scenarioNow

/-- Conversion to UTC of a timestamp under its own stated offset. -/
def ownOffsetUtc (s : List Char) : Option PyDatetime :=
  (fromisoformat s).map PyDatetime.astimezoneUtc

/-- C3 counterexample: in the claimed scenario the code does produce exactly
two requests tagged 5h/2h, but their run times are
2025-11-23T05:15:00+09:00→UTC and 2025-11-23T08:15:00+09:00→UTC — NOT the
claimed 2025-11-23T00:15:00+09:00→UTC and 2025-11-23T03:15:00+09:00→UTC
(departure 10:15 minus 5h is 05:15 local, minus 2h is 08:15 local). -/
theorem scenario_runtimes_differ_from_claim :
    scenarioRequests.map ScheduleRequest.tag = [tag5h, tag2h]
      ∧ scenarioRequests.map (fun r => r.run_time_utc)
          ≠ [(ownOffsetUtc ("2025-11-23T00:15:00+09:00".data)).getD ⟨0, none⟩,
             (ownOffsetUtc ("2025-11-23T03:15:00+09:00".data)).getD ⟨0, none⟩] := by
  refine ⟨by decide, by decide⟩

/-- C3 amended: the scenario yields exactly two requests, tagged 5h/2h, both
strictly in the future, with run times 2025-11-23T05:15:00+09:00→UTC and
2025-11-23T08:15:00+09:00→UTC. -/
theorem scenario_two_requests_with_runtimes :
    scenarioRequests.length = 2
      ∧ scenarioRequests.map ScheduleRequest.tag = [tag5h, tag2h]
      ∧ scenarioRequests.map (fun r => r.run_time_utc)
          = [(ownOffsetUtc ("2025-11-23T05:15:00+09:00".data)).getD ⟨0, none⟩,
             (ownOffsetUtc ("2025-11-23T08:15:00+09:00".data)).getD ⟨0, none⟩]
      ∧ scenarioRequests.map (fun r => pyDtGt r.run_time_utc scenarioNow)
          = [true, true] := by
  refine ⟨by decide, by decide, by decide, by decide⟩

/-- Witness for C2's amended statement: in the scenario both requests are
strictly future (part 1 applied to the first request), and with a later `now`
sitting between the two triggers the stale 5h trigger is dropped while the 2h
trigger alone is registered (part 2 applied to the scenario plan). -/
theorem email_path_stale_guard_witness :
    ((⟨⟨1763842500, some 0⟩, "u@example.com".data,
        "[인천공항] 출국 5시간 전 알림 (KE123)".data, ['A'], tag5h⟩ : ScheduleRequest)
        ∈ schedule_email_alerts (some ("u@example.com".data)) scenarioFlightRaw
            scenarioNotif scenarioNow)
      ∧ pyDtGt (⟨1763842500, some 0⟩ : PyDatetime) scenarioNow = true
      ∧ email_schedule_plan (some ("u@example.com".data)) scenarioFlightRaw
          scenarioNotif
          = some ⟨⟨1763842500, some 0⟩, ⟨1763853300, some 0⟩,
              "u@example.com".data,
              "[인천공항] 출국 5시간 전 알림 (KE123)".data,
              "[인천공항] 출국 2시간 전 알림 (KE123)".data, ['A'], ['B']⟩
      ∧ schedule_email_alerts (some ("u@example.com".data)) scenarioFlightRaw
          scenarioNotif ⟨1763845000, some 0⟩
          = [⟨⟨1763853300, some 0⟩, "u@example.com".data,
              "[인천공항] 출국 2시간 전 알림 (KE123)".data, ['B'], tag2h⟩] :=
  ⟨by decide,
   email_path_stale_guard.1 (some ("u@example.com".data)) scenarioFlightRaw
     scenarioNotif scenarioNow
     ⟨⟨1763842500, some 0⟩, "u@example.com".data,
       "[인천공항] 출국 5시간 전 알림 (KE123)".data, ['A'], tag5h⟩ (by decide),
   by decide,
   email_path_stale_guard.2 (some ("u@example.com".data)) scenarioFlightRaw
     scenarioNotif ⟨1763845000, some 0⟩
     ⟨⟨1763842500, some 0⟩, ⟨1763853300, some 0⟩, "u@example.com".data,
       "[인천공항] 출국 5시간 전 알림 (KE123)".data,
       "[인천공항] 출국 2시간 전 알림 (KE123)".data, ['A'], ['B']⟩
     (by decide) (by decide) (by decide)⟩

/-- C4 counterexample: for a departure timestamp carrying the explicit offset
+11:00, the email path's calculation does NOT keep that offset — it overwrites
it with Asia/Seoul (+09:00), so its UTC instant differs by two hours from the
timestamp interpreted under its own stated offset. -/
theorem email_path_discards_explicit_offset :
    email_dep_utc ("2025-11-23T10:15:00+11:00".data) = some ⟨1763860500, some 0⟩
      ∧ ownOffsetUtc ("2025-11-23T10:15:00+11:00".data) = some ⟨1763853300, some 0⟩
      ∧ email_dep_utc ("2025-11-23T10:15:00+11:00".data)
          ≠ ownOffsetUtc ("2025-11-23T10:15:00+11:00".data) := by
  refine ⟨by decide, by decide, by decide⟩

/-- C4 amended: the departure-notification path keeps an explicit offset and
attaches the fixed Asia/Seoul offset only to a naive timestamp, while the
email path yields the clock reading reinterpreted under the fixed Asia/Seoul
offset for EVERY parseable timestamp, explicit offset or not. -/
theorem offset_attachment_per_path :
    (∀ (s : List Char) (d : PyDatetime) (o : Int),
        fromisoformat s = some d → d.tz = some o →
        departure_parse_local s = some d)
      ∧ (∀ (s : List Char) (d : PyDatetime),
          fromisoformat s = some d → d.tz = none →
          departure_parse_local s = some (d.replaceTz (some kstOffset)))
      ∧ ∀ (s : List Char) (d : PyDatetime),
          fromisoformat (replaceSpaceT s) = some d →
          email_dep_utc s = some ⟨d.naive - kstOffset, some 0⟩ := by
  refine ⟨?_, ?_, ?_⟩
  · intro s d o h1 h2
    simp [departure_parse_local, h1, h2]
  · intro s d h1 h2
    simp [departure_parse_local, h1, h2]
  · intro s d h1
    simp [email_dep_utc, h1, PyDatetime.replaceTz, PyDatetime.astimezoneUtc,
      PyDatetime.instant]

/-- Witness for C4's amended statement: an explicit +11:00 offset is kept by
the departure path, and the same string goes through the email path as a
Seoul-clock reading. -/
theorem offset_attachment_per_path_witness :
    fromisoformat ("2025-11-23T10:15:00+11:00".data)
        = some ⟨1763892900, some 39600⟩
      ∧ departure_parse_local ("2025-11-23T10:15:00+11:00".data)
          = some ⟨1763892900, some 39600⟩
      ∧ email_dep_utc ("2025-11-23T10:15:00+11:00".data)
          = some ⟨1763892900 - kstOffset, some 0⟩ :=
  ⟨by decide,
   offset_attachment_per_path.1 _ ⟨1763892900, some 39600⟩ 39600 (by decide) rfl,
   offset_attachment_per_path.2.2 _ ⟨1763892900, some 39600⟩ (by decide)⟩

/-- C5 counterexample: the text consisting of a valid JSON object followed by
prose that contains a stray closing brace defeats the extractor — the greedy
first-brace/last-brace span swallows the prose and every parse step fails, so
the extractor returns no record while parsing the bare object succeeds. -/
theorem extractor_roundtrip_fails_on_bracey_prose :
    parse_json_safe (.str ("\x7b\"a\": 1\x7d oops\x7d".data)) = none
      ∧ (pyLoads ("\x7b\"a\": 1\x7d".data)).isSome = true :=
  ⟨rfl, rfl⟩

/-- C5 amended: the round-trip holds when the surrounding prose is clean — the
prefix contains no `'{'` and no backtick, the suffix contains no `'}'` and no
backtick, and the object text itself contains no backtick: then the extractor
returns exactly the record parsed from the bare object text. -/
theorem extractor_roundtrip_with_clean_prose (pre mid post : List Char)
    (j : Json)
    (hpre : ∀ c ∈ pre, c ≠ '{' ∧ c ≠ '`')
    (hmid : ∀ c ∈ mid, c ≠ '`')
    (hpost : ∀ c ∈ post, c ≠ '}' ∧ c ≠ '`')
    (hobj : pyLoads ('{' :: (mid ++ ['}'])) = some j) :
    parse_json_safe (.str (pre ++ ('{' :: (mid ++ ['}'])) ++ post)) = some j := by
  have hstrip := pyStrip_sandwich pre mid post
  have hpre2mem : ∀ c ∈ pre.dropWhile pyIsSpace, c ∈ pre := fun c hc =>
    (List.dropWhile_sublist (l := pre) (p := pyIsSpace)).mem hc
  have hpost2mem : ∀ c ∈ (post.reverse.dropWhile pyIsSpace).reverse,
      c ∈ post := by
    intro c hc
    rw [List.mem_reverse] at hc
    have h2 := (List.dropWhile_sublist (l := post.reverse)
      (p := pyIsSpace)).mem hc
    rwa [List.mem_reverse] at h2
  have hnb : ∀ c ∈ pyStrip (pre ++ ('{' :: (mid ++ ['}'])) ++ post),
      c ≠ '`' := by
    rw [hstrip]
    intro c hc
    rcases List.mem_append.mp hc with hc | hc
    · rcases List.mem_append.mp hc with hc | hc
      · exact (hpre c (hpre2mem c hc)).2
      · rcases List.mem_cons.mp hc with rfl | hc
        · decide
        · rcases List.mem_append.mp hc with hc | hc
          · exact hmid c hc
          · rw [List.mem_singleton.mp hc]
            decide
    · exact (hpost c (hpost2mem c hc)).2
  have hfence :
      fenceCandidate (pyStrip (pre ++ ('{' :: (mid ++ ['}'])) ++ post))
        = none := by
    unfold fenceCandidate
    rw [splitOnFirstCI_fence_none hnb]
  have hbrace :
      braceSpan (pyStrip (pre ++ ('{' :: (mid ++ ['}'])) ++ post))
        = some ('{' :: (mid ++ ['}'])) := by
    rw [hstrip]
    exact braceSpan_sandwich _ mid _
      (fun hc => (hpre _ (hpre2mem _ hc)).1 rfl)
      (fun hc => (hpost _ (hpost2mem _ hc)).1 rfl)
  have hext :
      extract_json_from_text
          (pyStrip (pre ++ ('{' :: (mid ++ ['}'])) ++ post)) = some j := by
    unfold extract_json_from_text
    rw [hfence, hbrace]
    exact hobj
  show (match extract_json_from_text
        (pyStrip (pre ++ ('{' :: (mid ++ ['}'])) ++ post)) with
      | some v => some v
      | none =>
        match pyLoads (pyStrip (pre ++ ('{' :: (mid ++ ['}'])) ++ post)) with
        | some v => some v
        | none => sliceStep3 (pyStrip (pre ++ ('{' :: (mid ++ ['}'])) ++ post)))
      = some j
  rw [hext]

/-- Witness for C5's amended statement. -/
theorem extractor_roundtrip_with_clean_prose_witness :
    (∀ c ∈ ("Result: ".data), c ≠ '{' ∧ c ≠ '`')
      ∧ (∀ c ∈ ("\"a\": 1".data), c ≠ '`')
      ∧ (∀ c ∈ (" done.".data), c ≠ '}' ∧ c ≠ '`')
      ∧ pyLoads ('{' :: ("\"a\": 1".data ++ ['}']))
          = some (Json.obj [("a".data, Json.num ['1'])])
      ∧ parse_json_safe
          (.str ("Result: ".data ++ ('{' :: ("\"a\": 1".data ++ ['}']))
            ++ " done.".data))
          = some (Json.obj [("a".data, Json.num ['1'])]) :=
  ⟨by decide, by decide, by decide, rfl,
   extractor_roundtrip_with_clean_prose ("Result: ".data) ("\"a\": 1".data)
     (" done.".data) (Json.obj [("a".data, Json.num ['1'])])
     (by decide) (by decide) (by decide) rfl⟩

/-- C6: the extractor is total — a mapping is returned unchanged, Python
`None` and unsupported types yield no record, and every string with no brace
and no backtick whose text does not itself parse yields no record; this holds
for both the main and the utils variant. -/
theorem extractor_never_raises_and_defaults :
    (∀ d, parse_json_safe (.dict d) = some (.obj d)
        ∧ utils_parse_json_safe (.dict d) = some (.obj d))
      ∧ parse_json_safe .none = none
      ∧ utils_parse_json_safe .none = none
      ∧ parse_json_safe .other = none
      ∧ utils_parse_json_safe .other = none
      ∧ parse_json_safe (.str []) = none
      ∧ utils_parse_json_safe (.str []) = none
      ∧ ∀ s : List Char, '{' ∉ s → '`' ∉ s →
          pyLoads (pyStrip s) = none → pyLoads s = none →
          parse_json_safe (.str s) = none
            ∧ utils_parse_json_safe (.str s) = none := by
  refine ⟨fun d => ⟨rfl, rfl⟩, rfl, rfl, rfl, rfl, rfl, rfl, ?_⟩
  intro s h1 h2 h3 h4
  have hfence : fenceCandidate (pyStrip s) = none := by
    unfold fenceCandidate
    rw [splitOnFirstCI_fence_none
      (fun c hc hh => h2 (hh ▸ mem_of_mem_pyStrip hc))]
  have hbrace : braceSpan (pyStrip s) = none := by
    unfold braceSpan
    rw [dropBeforeFirst_eq_none (fun hc => h1 (mem_of_mem_pyStrip hc))]
    rfl
  have hslice : sliceStep3 (pyStrip s) = none := by
    unfold sliceStep3
    rw [firstIdxOf_eq_none (fun hc => h1 (mem_of_mem_pyStrip hc))]
  have hsliceraw : sliceStep3 s = none := by
    unfold sliceStep3
    rw [firstIdxOf_eq_none h1]
  constructor
  · simp [parse_json_safe, extract_json_from_text, hfence, hbrace, h3, hslice]
  · simp [utils_parse_json_safe, h4, hsliceraw]

/-- Witness for C6's universally quantified part. -/
theorem extractor_never_raises_and_defaults_witness :
    ('{' ∉ ("plain prose, no braces".data))
      ∧ ('`' ∉ ("plain prose, no braces".data))
      ∧ pyLoads (pyStrip ("plain prose, no braces".data)) = none
      ∧ pyLoads ("plain prose, no braces".data) = none
      ∧ parse_json_safe (.str ("plain prose, no braces".data)) = none :=
  ⟨by decide, by decide, rfl, rfl,
   (extractor_never_raises_and_defaults.2.2.2.2.2.2.2
     ("plain prose, no braces".data) (by decide) (by decide) rfl rfl).1⟩
